import Mathlib

/-!
Verification development for a small LOLCODE-to-HTML compiler written in Rust
(single file `src/main.rs`).  The pipeline is: character tokenizer →
keyword/regex classifier (`lookup`) → recursive-descent parser with
interleaved scope analysis (`parse_*`, `declare_variable`, `lookup_variable`,
`push_scope`, `pop_scope`) → a second, independent HTML-generating traversal
(`to_html`).

The embedding below mirrors the Rust source function by function:

* Rust stores the token list reversed and pops from the tail; the embedding
  keeps the list in source order and consumes from the head, which is the
  same consumption order.
* The Rust scope stack is a `Vec` whose LAST frame is innermost; the Lean
  `scope_stack` is a list whose HEAD frame is innermost (push = cons, the
  `last_mut` frame = head, `iter().rev()` search = left-to-right search).
* `process::exit(1)` on an error report is modelled as an `Except Err`
  error value; recursion that the Rust source performs without bound is
  modelled with a fuel parameter, `none` meaning the fuel ran out (so a
  computation that diverges in Rust is `none` for every fuel).
* Rust `HashMap<String, VariableInfo>` frames are association lists; the
  source only ever inserts a key after checking it is absent, so the
  association-list insert (cons at the front) has the same lookup behaviour.
* A panicking `unwrap()` in `to_html` is modelled by the `panicked` result.
-/

/-! ## Lexical analyzer: regexes and keyword tables (`LolcodeLexicalAnalyzer`) -/

/-- Rust `str::to_lowercase`, restricted to the ASCII mapping the keyword
tables rely on; implemented over the character list so that it reduces
inside the kernel. -/
def lower (s : String) : String := ⟨s.data.map Char.toLower⟩

/-- Rust `str::starts_with("#")`, over the character list. -/
def startsHash (s : String) : Bool :=
  match s.data with
  | [] => false
  | c :: _ => c == '#'


/-- Character class of the Rust regex `^[A-Za-z0-9,\.\':\?!_\/ ]+$`
(`text` and `var_val` in `LolcodeLexicalAnalyzer::new`). -/
def isTextChar (c : Char) : Bool :=
  c.isAlpha || c.isDigit || c == ',' || c == '.' || c == '\'' || c == ':' ||
  c == '?' || c == '!' || c == '_' || c == '/' || c == ' '

/-- Character class of the Rust regex `^[A-Za-z0-9,\.\':\?!_\/%]+$`
(`address`): the text class with `%` in place of the space. -/
def isAddrChar (c : Char) : Bool :=
  c.isAlpha || c.isDigit || c == ',' || c == '.' || c == '\'' || c == ':' ||
  c == '?' || c == '!' || c == '_' || c == '/' || c == '%'

/-- `text.is_match`: one or more characters of the text class. -/
def textMatch (s : String) : Bool :=
  !s.data.isEmpty && s.data.all isTextChar

/-- `var_val.is_match`: the Rust `var_val` regex is identical to `text`. -/
def varValMatch (s : String) : Bool :=
  !s.data.isEmpty && s.data.all isTextChar

/-- `address.is_match`. -/
def addressMatch (s : String) : Bool :=
  !s.data.isEmpty && s.data.all isAddrChar

/-- `var_def.is_match`: the regex `^[A-Za-z]+$`, letters only. -/
def varDefMatch (s : String) : Bool :=
  !s.data.isEmpty && s.data.all Char.isAlpha

/-- The union of the `#`-keyword vectors checked by `lookup` when the lexeme
starts with `#`: `head_start ++ head_end ++ comment_start ++ comment_end ++
make_start ++ oic_end ++ gimmeh_start ++ mkay_end ++ variable_start ++
variable_mid ++ variable_end`. -/
def hashKeywords : List String :=
  ["#hai", "#kthxbye", "#obtw", "#tldr", "#maek", "#oic", "#gimmeh", "#mkay",
   "#i", "haz", "#it", "iz", "#lemme", "see"]

/-- The element-keyword vectors checked by `lookup` for lexemes not starting
with `#`. -/
def elemKeywords : List String :=
  ["head", "title", "paragraf", "bold", "italics", "list", "item",
   "newline", "soundz", "vidz"]

/-- `LolcodeLexicalAnalyzer::lookup`: validate a lexeme.  A `#`-lexeme is
checked (lower-cased) against the closed tag-keyword set only; any other
lexeme against the element keywords and then the four regexes. -/
def lexLookup (s : String) : Bool :=
  if startsHash s then
    hashKeywords.contains (lower s)
  else
    elemKeywords.contains (lower s) || textMatch s || addressMatch s ||
      varDefMatch s || varValMatch s

/-! ## Tokenizer (`LolcodeLexicalAnalyzer::tokenize`)

The Rust code scans characters, flushing the current build on whitespace and
bumping the line counter on a newline, then reverses the vector so that
popping from the tail yields source order.  The embedding returns the tokens
directly in source order and the parser consumes from the head. -/

def tokenizeGo : List Char → String → Nat → List (String × Nat)
  | [], build, line => if build.data.isEmpty then [] else [(build, line)]
  | c :: cs, build, line =>
    if c == '\n' then
      if build.data.isEmpty then tokenizeGo cs "" (line + 1)
      else (build, line) :: tokenizeGo cs "" (line + 1)
    else if c.isWhitespace then
      if build.data.isEmpty then tokenizeGo cs "" line
      else (build, line) :: tokenizeGo cs "" line
    else
      tokenizeGo cs (build.push c) line

/-- Tokenize a source string into (lexeme, line) pairs, line numbers from 1. -/
def tokenize (source : String) : List (String × Nat) :=
  tokenizeGo source.data "" 1

/-! ## Classifier predicates used by the parser (`is_*` helpers) -/

def isDocumentEnd (s : String) : Bool := lower s == "#kthxbye"
def isMakeStart (s : String) : Bool := lower s == "#maek"
def isOicEnd (s : String) : Bool := lower s == "#oic"
def isGimmehStart (s : String) : Bool := lower s == "#gimmeh"
def isMkayEnd (s : String) : Bool := lower s == "#mkay"
def isCommentStart (s : String) : Bool := lower s == "#obtw"
def isCommentEnd (s : String) : Bool := lower s == "#tldr"
def isVariableStart (s : String) : Bool := lower s == "#i" || lower s == "haz"
def isVariableMid (s : String) : Bool := lower s == "#it" || lower s == "iz"
def isVariableEnd (s : String) : Bool := lower s == "#lemme" || lower s == "see"
def isHeadElement (s : String) : Bool := lower s == "head"
def isTitleElement (s : String) : Bool := lower s == "title"
def isParagraphElement (s : String) : Bool := lower s == "paragraf"
def isBoldElement (s : String) : Bool := lower s == "bold"
def isItalicsElement (s : String) : Bool := lower s == "italics"
def isListElement (s : String) : Bool := lower s == "list"
def isItemElement (s : String) : Bool := lower s == "item"
def isNewlineElement (s : String) : Bool := lower s == "newline"
def isSoundzElement (s : String) : Bool := lower s == "soundz"
def isVidzElement (s : String) : Bool := lower s == "vidz"
def isTextTok (s : String) : Bool := textMatch s
def isAddressTok (s : String) : Bool := addressMatch s
def isVarIdent (s : String) : Bool := varDefMatch s

/-! ## Scope data model (`VariableInfo`, scope stack) -/

/-- The Rust `VariableInfo` struct. -/
structure VariableInfo where
  name : String
  value : Option String
  line_defined : Nat
deriving DecidableEq, Repr

/-- One scope frame: the Rust `HashMap<String, VariableInfo>` modelled as an
association list. -/
abbrev Frame := List (String × VariableInfo)

/-- Key lookup in a frame (`HashMap::get` / `contains_key`). -/
def frameFind : Frame → String → Option VariableInfo
  | [], _ => none
  | (k, v) :: rest, name => if k == name then some v else frameFind rest name

/-- Error kinds reported by the compiler (each is fatal in Rust). -/
inductive ErrKind where
  | lexErr | synErr | semErr | userErr
deriving DecidableEq, Repr

/-- A fatal compiler error: kind plus the reported message text. -/
structure Err where
  kind : ErrKind
  msg : String
deriving DecidableEq, Repr

/-- Build a syntax-error value with the standard message prefix. -/
def synAt (line : Nat) (m : String) : Err :=
  ⟨ErrKind.synErr, "Syntax error at line " ++ toString line ++ ": " ++ m⟩

/-- Parser/compiler state: remaining tokens (source order, head = next),
the current token, the current line, and the scope stack (head frame =
innermost; the Rust `Vec` keeps the innermost frame last). -/
structure PState where
  toks : List (String × Nat)
  current_tok : String
  current_line : Nat
  scope_stack : List Frame
deriving DecidableEq, Repr

/-- `LolcodeCompiler::push_scope`: push a fresh innermost frame. -/
def pushScope (st : PState) : PState :=
  { st with scope_stack := [] :: st.scope_stack }

/-- `LolcodeCompiler::pop_scope`: pop the innermost frame only when more
than one frame is present. -/
def popScope (st : PState) : PState :=
  if 1 < st.scope_stack.length then { st with scope_stack := st.scope_stack.tail }
  else st

/-- Message of the duplicate-declaration semantic error. -/
def dupErrMsg (line : Nat) (name : String) (lineDefined : Nat) : String :=
  "Semantic error at line " ++ toString line ++ ": Variable '" ++ name ++
    "' is already defined at line " ++ toString lineDefined ++ " in the current scope."

/-- `LolcodeCompiler::declare_variable`: check the innermost frame only; a
collision is a fatal semantic error citing the earlier declaration's line,
otherwise insert into the innermost frame.  (With an empty stack the Rust
`if let Some(..) = last_mut()` silently does nothing.) -/
def declareVariable (st : PState) (name : String) (value : Option String)
    (line : Nat) : Except Err PState :=
  match st.scope_stack with
  | [] => Except.ok st
  | fr :: rest =>
    match frameFind fr name with
    | some existing => Except.error ⟨ErrKind.semErr, dupErrMsg line name existing.line_defined⟩
    | none =>
      Except.ok { st with
        scope_stack := ((name, ⟨name, value, line⟩) :: fr) :: rest }

/-- `LolcodeCompiler::lookup_variable`: search frames innermost to
outermost, returning the first match. -/
def lookupVariable : List Frame → String → Option VariableInfo
  | [], _ => none
  | fr :: rest, name =>
    match frameFind fr name with
    | some vi => some vi
    | none => lookupVariable rest name

/-- `LolcodeCompiler::next_token`: pop the next token, record its line,
and lexically validate it; an unrecognized token is a fatal lexical error;
an exhausted stream clears the current token. -/
def nextToken (st : PState) : Except Err PState :=
  match st.toks with
  | [] => Except.ok { st with current_tok := "" }
  | (cand, line) :: rest =>
    if lexLookup cand then
      Except.ok { st with toks := rest, current_tok := cand, current_line := line }
    else
      Except.error ⟨ErrKind.lexErr,
        "Lexical error at line " ++ toString line ++ ": '" ++ cand ++
          "' is not a recognized token."⟩

/-! ## Parser (`LolcodeSyntaxAnalyzer`)

Each Rust parse routine becomes a function `Nat → PState → PRes`.  The `Nat`
is fuel: `none` means the fuel ran out, which is how unbounded recursion in
the Rust source (e.g. `parse_body` calling itself) is made total.  Every
function consumes one unit of fuel per invocation and hands the remainder to
its callees, so any terminating Rust run is reproduced by a large enough
fuel, and a run that diverges in Rust is `none` at every fuel. -/

/-- Result of a parse routine: `none` = out of fuel (divergence),
`some (error e)` = fatal report and exit, `some (ok st)` = normal return. -/
abbrev PRes := Option (Except Err PState)

/-- Sequencing for parse results. -/
def pbind (x : PRes) (f : PState → PRes) : PRes :=
  match x with
  | none => none
  | some (Except.error e) => some (Except.error e)
  | some (Except.ok st) => f st

/-- `parse_text`: consume tokens while the current token neither starts with
`#` nor is `#mkay`; an empty token inside the loop is a fatal error. -/
def parseText : Nat → PState → PRes
  | 0, _ => none
  | f + 1, st =>
    if !startsHash st.current_tok && !isMkayEnd st.current_tok then
      if st.current_tok == "" then
        some (Except.error (synAt st.current_line ("Unexpected end of input in bold.")))
      else
        pbind (some (nextToken st)) (parseText f)
    else some (Except.ok st)

/-- The `while !is_mkay_end` loop inside `parse_title`. -/
def titleLoop : Nat → PState → PRes
  | 0, _ => none
  | f + 1, st =>
    if !isMkayEnd st.current_tok then
      if st.current_tok == "" then
        some (Except.error (synAt st.current_line ("Unexpected end of input in title.")))
      else
        pbind (parseText f st) (titleLoop f)
    else some (Except.ok st)

/-- `parse_title`: `#gimmeh` `title` text* `#mkay`. -/
def parseTitle : Nat → PState → PRes
  | 0, _ => none
  | f + 1, st =>
    if !isGimmehStart st.current_tok then
      some (Except.error (synAt st.current_line
        ("Expected '#gimmeh', found '" ++ st.current_tok ++ "'.")))
    else
      pbind (some (nextToken st)) fun st1 =>
      if !isTitleElement st1.current_tok then
        some (Except.error (synAt st1.current_line
          ("Expected 'title', found '" ++ st1.current_tok ++ "'.")))
      else
        pbind (some (nextToken st1)) fun st2 =>
        pbind (titleLoop f st2) fun st3 =>
        some (nextToken st3)

/-- `parse_head`: `#maek` `head` title `#oic`; a fatal error whenever the
current token is not `#maek` (the head block is not skippable). -/
def parseHead : Nat → PState → PRes
  | 0, _ => none
  | f + 1, st =>
    if !isMakeStart st.current_tok then
      some (Except.error (synAt st.current_line
        ("Expected '#maek', found '" ++ st.current_tok ++ "'.")))
    else
      pbind (some (nextToken st)) fun st1 =>
      if !isHeadElement st1.current_tok then
        some (Except.error (synAt st1.current_line
          ("Expected 'head', found '" ++ st1.current_tok ++ "'.")))
      else
        pbind (some (nextToken st1)) fun st2 =>
        pbind (parseTitle f st2) fun st3 =>
        if !isOicEnd st3.current_tok then
          some (Except.error (synAt st3.current_line
            ("Expected '#oic', found '" ++ st3.current_tok ++ "'.")))
        else some (nextToken st3)

/-- `parse_comment`: `#obtw` text `#tldr`. -/
def parseComment : Nat → PState → PRes
  | 0, _ => none
  | f + 1, st =>
    if !isCommentStart st.current_tok then
      some (Except.error (synAt st.current_line
        ("Expected comment start '#obtw', found '" ++ st.current_tok ++ "'.")))
    else
      pbind (some (nextToken st)) fun st1 =>
      pbind (parseText f st1) fun st2 =>
      if !isCommentEnd st2.current_tok then
        some (Except.error (synAt st2.current_line
          ("Expected comment end '#tldr', found '" ++ st2.current_tok ++ "'.")))
      else some (nextToken st2)

/-- `parse_comments`: zero or more comments. -/
def parseComments : Nat → PState → PRes
  | 0, _ => none
  | f + 1, st =>
    if isCommentStart st.current_tok then
      pbind (parseComment f st) (parseComments f)
    else some (Except.ok st)

/-- Message of the undeclared-use semantic error, with its remediation hint
naming the declaration syntax (three `eprintln!` lines in the source). -/
def useErrMsg (line : Nat) (n : String) : String :=
  "Semantic error at line " ++ toString line ++ ": Variable '" ++ n ++
    "' is used before being defined.\n  --> Variable '" ++ n ++
    "' has not been declared in the current scope.\n  --> Use '#I HAZ " ++ n ++
    "' or 'HAZ " ++ n ++ "' to declare the variable before using it."

/-- `parse_variable_define`.  Note the faithful transcription of the source:
`var_keyword` is read from the current token and, when it is `#i`, the SAME
still-current token is compared against `haz` without an intervening
`next_token`, so the `#i` entry path always reports
"Expected 'haz' after '#i'". -/
def parseVariableDefine : Nat → PState → PRes
  | 0, _ => none
  | _ + 1, st =>
    let varKeyword := lower st.current_tok
    pbind (if varKeyword == "#i" then
             if lower st.current_tok != "haz" then
               some (Except.error (synAt st.current_line
                 ("Expected 'haz' after '#i', found '" ++ st.current_tok ++ "'.")))
             else some (nextToken st)
           else some (Except.ok st)) fun st1 =>
    if !isVarIdent st1.current_tok then
      some (Except.error (synAt st1.current_line
        ("Expected variable identifier, found '" ++ st1.current_tok ++ "'.")))
    else
      let varName := st1.current_tok
      pbind (some (nextToken st1)) fun st2 =>
      if isVariableMid st2.current_tok then
        let midKeyword := lower st2.current_tok
        pbind (some (nextToken st2)) fun st3 =>
        pbind (if midKeyword == "#it" then
                 if lower st3.current_tok != "iz" then
                   some (Except.error (synAt st3.current_line
                     ("Expected 'iz' after '#it', found '" ++ st3.current_tok ++ "'.")))
                 else some (nextToken st3)
               else some (Except.ok st3)) fun st4 =>
        if !isTextTok st4.current_tok && !isAddressTok st4.current_tok then
          some (Except.error (synAt st4.current_line
            ("Expected value after 'iz', found '" ++ st4.current_tok ++ "'.")))
        else
          let value := st4.current_tok
          pbind (some (nextToken st4)) fun st5 =>
          if !isMkayEnd st5.current_tok then
            some (Except.error (synAt st5.current_line
              ("Expected '#mkay' after variable value, found '" ++ st5.current_tok ++ "'.")))
          else
            pbind (some (nextToken st5)) fun st6 =>
            some (declareVariable st6 varName (some value) st6.current_line)
      else
        some (declareVariable st2 varName none st2.current_line)

/-- `parse_variable_use`: `#lemme` `see` identifier `#mkay`, with the
scope-analyzer lookup; an unbound identifier is a fatal semantic error
carrying the remediation hint. -/
def parseVariableUse : Nat → PState → PRes
  | 0, _ => none
  | _ + 1, st =>
    if !isVariableEnd st.current_tok then
      some (Except.error (synAt st.current_line
        ("Expected '#lemme' or 'see', found '" ++ st.current_tok ++ "'.")))
    else
      let varKeyword := lower st.current_tok
      pbind (some (nextToken st)) fun st1 =>
      pbind (if varKeyword == "#lemme" then
               if lower st1.current_tok != "see" then
                 some (Except.error (synAt st1.current_line
                   ("Expected 'see' after '#lemme', found '" ++ st1.current_tok ++ "'.")))
               else some (nextToken st1)
             else some (Except.ok st1)) fun st2 =>
      if !isVarIdent st2.current_tok then
        some (Except.error (synAt st2.current_line
          ("Expected variable identifier, found '" ++ st2.current_tok ++ "'.")))
      else
        let varName := st2.current_tok
        match lookupVariable st2.scope_stack varName with
        | none => some (Except.error ⟨ErrKind.semErr, useErrMsg st2.current_line varName⟩)
        | some _ =>
          pbind (some (nextToken st2)) fun st3 =>
          if !isMkayEnd st3.current_tok then
            some (Except.error (synAt st3.current_line
              ("Expected '#mkay' after variable usage, found '" ++ st3.current_tok ++ "'.")))
          else some (nextToken st3)

/-- `parse_newline`: only asserts the `newline` keyword (no token consumed). -/
def parseNewline : Nat → PState → PRes
  | 0, _ => none
  | _ + 1, st =>
    if !isNewlineElement st.current_tok then
      some (Except.error (synAt st.current_line
        ("Expected 'newline', found '" ++ st.current_tok ++ "'.")))
    else some (Except.ok st)

/-- `parse_audio`: `#gimmeh` `soundz` address `#mkay`. -/
def parseAudio : Nat → PState → PRes
  | 0, _ => none
  | _ + 1, st =>
    if !isGimmehStart st.current_tok then
      some (Except.error (synAt st.current_line
        ("Expected '#gimmeh', found '" ++ st.current_tok ++ "'.")))
    else
      pbind (some (nextToken st)) fun st1 =>
      if !isSoundzElement st1.current_tok then
        some (Except.error (synAt st1.current_line
          ("Expected 'soundz', found '" ++ st1.current_tok ++ "'.")))
      else
        pbind (some (nextToken st1)) fun st2 =>
        if !isAddressTok st2.current_tok then
          some (Except.error (synAt st2.current_line
            ("Expected address for audio, found '" ++ st2.current_tok ++ "'.")))
        else
          pbind (some (nextToken st2)) fun st3 =>
          if !isMkayEnd st3.current_tok then
            some (Except.error (synAt st3.current_line
              ("Expected '#mkay' after audio address, found '" ++ st3.current_tok ++ "'.")))
          else some (nextToken st3)

/-- `parse_video`: `vidz` address `#mkay` (the `#gimmeh` was consumed by the
caller). -/
def parseVideo : Nat → PState → PRes
  | 0, _ => none
  | _ + 1, st =>
    if !isVidzElement st.current_tok then
      some (Except.error (synAt st.current_line
        ("Expected 'vidz', found '" ++ st.current_tok ++ "'.")))
    else
      pbind (some (nextToken st)) fun st1 =>
      if !isAddressTok st1.current_tok then
        some (Except.error (synAt st1.current_line
          ("Expected address for audio, found '" ++ st1.current_tok ++ "'.")))
      else
        pbind (some (nextToken st1)) fun st2 =>
        if !isMkayEnd st2.current_tok then
          some (Except.error (synAt st2.current_line
            ("Expected '#mkay' after audio address, found '" ++ st2.current_tok ++ "'.")))
        else some (nextToken st2)

/-- `parse_bold` (caller consumed `#gimmeh`): `bold` then a variable use or
text, then one unconditional token consume for `#mkay`. -/
def parseBold : Nat → PState → PRes
  | 0, _ => none
  | f + 1, st =>
    if !isBoldElement st.current_tok then
      some (Except.error (synAt st.current_line
        ("expected bold found " ++ st.current_tok)))
    else
      pbind (some (nextToken st)) fun st1 =>
      pbind (if isVariableEnd st1.current_tok then parseVariableUse f st1
             else parseText f st1) fun st2 =>
      some (nextToken st2)

/-- `parse_italics` (caller consumed `#gimmeh`). -/
def parseItalics : Nat → PState → PRes
  | 0, _ => none
  | f + 1, st =>
    if !isItalicsElement st.current_tok then
      some (Except.error (synAt st.current_line
        ("expected italics found " ++ st.current_tok)))
    else
      pbind (some (nextToken st)) fun st1 =>
      pbind (if isVariableEnd st1.current_tok then parseVariableUse f st1
             else parseText f st1) fun st2 =>
      some (nextToken st2)

/-- `parse_inner_list`: optional `#gimmeh` bold/italics, then text, then a
variable use. -/
def parseInnerList : Nat → PState → PRes
  | 0, _ => none
  | f + 1, st =>
    if st.current_tok != "" then
      pbind (if isGimmehStart st.current_tok then
               pbind (some (nextToken st)) fun st1 =>
                 if isBoldElement st1.current_tok then parseBold f st1
                 else if isItalicsElement st1.current_tok then parseItalics f st1
                 else some (Except.ok st1)
             else some (Except.ok st)) fun st2 =>
      pbind (parseText f st2) fun st3 =>
      parseVariableUse f st3
    else some (Except.ok st)

/-- `parse_item`: `#gimmeh` `item` inner-list `#mkay` (the closing `#mkay`
is asserted but not consumed, exactly as in the source). -/
def parseItem : Nat → PState → PRes
  | 0, _ => none
  | f + 1, st =>
    if !isGimmehStart st.current_tok then
      some (Except.error (synAt st.current_line
        ("expected #gimmeh found " ++ st.current_tok)))
    else
      pbind (some (nextToken st)) fun st1 =>
      if !isItemElement st1.current_tok then
        some (Except.error (synAt st1.current_line
          ("expected #gimmeh found " ++ st1.current_tok)))
      else
        pbind (some (nextToken st1)) fun st2 =>
        pbind (parseInnerList f st2) fun st3 =>
        if !isMkayEnd st3.current_tok then
          some (Except.error (synAt st3.current_line
            ("expected #mkay found " ++ st3.current_tok)))
        else some (Except.ok st3)

/-- `parse_list_items`: items until the token stream presents an empty
current token. -/
def parseListItems : Nat → PState → PRes
  | 0, _ => none
  | f + 1, st =>
    if st.current_tok != "" then
      pbind (parseItem f st) (parseListItems f)
    else some (Except.ok st)

/-- `parse_list`: `#maek` `list` items, then the source's partial `#oic`
check (an error only when the token is empty) and one consume. -/
def parseList : Nat → PState → PRes
  | 0, _ => none
  | f + 1, st =>
    if !isMakeStart st.current_tok then
      some (Except.error (synAt st.current_line
        ("Expected '#maek', found '" ++ st.current_tok ++ "'.")))
    else
      pbind (some (nextToken st)) fun st1 =>
      if !isListElement st1.current_tok then
        some (Except.error (synAt st1.current_line
          ("Expected 'list', found '" ++ st1.current_tok ++ "'.")))
      else
        pbind (some (nextToken st1)) fun st2 =>
        pbind (parseListItems f st2) fun st3 =>
        if !isOicEnd st3.current_tok && st3.current_tok == "" then
          some (Except.error (synAt st3.current_line
            ("Expected 'oic', found '" ++ st3.current_tok ++ "'.")))
        else some (nextToken st3)

/-- `parse_inner_text`: one piece of paragraph content. -/
def parseInnerText : Nat → PState → PRes
  | 0, _ => none
  | f + 1, st =>
    if isVariableEnd st.current_tok then parseVariableUse f st
    else if isGimmehStart st.current_tok then
      pbind (some (nextToken st)) fun st1 =>
      if isBoldElement st1.current_tok then parseBold f st1
      else if isItalicsElement st1.current_tok then parseItalics f st1
      else if isNewlineElement st1.current_tok then parseNewline f st1
      else if isSoundzElement st1.current_tok then parseAudio f st1
      else if isVidzElement st1.current_tok then parseVideo f st1
      else
        some (Except.error (synAt st1.current_line
          ("Expected 'bold', 'italics', 'newline', 'soundz', or 'vidz', found '" ++
            st1.current_tok ++ "'.")))
    else if isMakeStart st.current_tok then
      pbind (some (nextToken st)) (parseList f)
    else if !startsHash st.current_tok then parseText f st
    else some (Except.ok st)

/-- `parse_inner_paragraph`: one content element, then one consume unless at
`#oic`. -/
def parseInnerParagraph : Nat → PState → PRes
  | 0, _ => none
  | f + 1, st =>
    pbind (parseInnerText f st) fun st1 =>
    if !isOicEnd st1.current_tok then some (nextToken st1)
    else some (Except.ok st1)

/-- The `while !is_oic_end` loop inside `parse_paragraph`. -/
def paraLoopP : Nat → PState → PRes
  | 0, _ => none
  | f + 1, st =>
    if !isOicEnd st.current_tok then
      if st.current_tok == "" then
        some (Except.error (synAt st.current_line ("Unexpected end of input in paragraph.")))
      else if isVariableStart st.current_tok then
        pbind (parseVariableDefine f st) (paraLoopP f)
      else
        pbind (parseInnerParagraph f st) (paraLoopP f)
    else some (Except.ok st)

/-- `parse_paragraph` (caller consumed `#maek`): push a scope frame, assert
`paragraf`, run the content loop, consume `#oic`, pop the scope frame. -/
def parseParagraph : Nat → PState → PRes
  | 0, _ => none
  | f + 1, st =>
    let st0 := pushScope st
    if !isParagraphElement st0.current_tok then
      some (Except.error (synAt st0.current_line
        ("Expected 'paragraf', found '" ++ st0.current_tok ++ "'.")))
    else
      pbind (some (nextToken st0)) fun st1 =>
      pbind (paraLoopP f st1) fun st2 =>
      if !isOicEnd st2.current_tok then
        some (Except.error (synAt st2.current_line
          ("Expected '#oic', found '" ++ st2.current_tok ++ "'.")))
      else
        pbind (some (nextToken st2)) fun st3 =>
        some (Except.ok (popScope st3))

/-- The `while is_variable_start` declaration loop at the top of
`parse_lolcode`. -/
def parseDefsLoop : Nat → PState → PRes
  | 0, _ => none
  | f + 1, st =>
    if isVariableStart st.current_tok then
      pbind (parseVariableDefine f st) (parseDefsLoop f)
    else some (Except.ok st)

/-- `parse_inner_body`: dispatch on the current token; a variable-start
token is returned to the caller UNCONSUMED (the source `return`s
immediately), and an empty token falls through with no action. -/
def parseInnerBody : Nat → PState → PRes
  | 0, _ => none
  | f + 1, st =>
    if isVariableStart st.current_tok then some (Except.ok st)
    else if isMakeStart st.current_tok then
      pbind (some (nextToken st)) fun st1 =>
      if isParagraphElement st1.current_tok then parseParagraph f st1
      else if isListElement st1.current_tok then parseList f st1
      else
        some (Except.error (synAt st1.current_line
          ("Expected 'paragraf' or 'list', found '" ++ st1.current_tok ++ "'.")))
    else if isGimmehStart st.current_tok then
      pbind (some (nextToken st)) fun st1 =>
      if isBoldElement st1.current_tok then
        pbind (some (nextToken st1)) (parseBold f)
      else if isItalicsElement st1.current_tok then
        pbind (some (nextToken st1)) (parseItalics f)
      else if isSoundzElement st1.current_tok then parseAudio f st1
      else if isVidzElement st1.current_tok then parseVideo f st1
      else if isNewlineElement st1.current_tok then parseNewline f st1
      else
        some (Except.error (synAt st1.current_line
          ("Expected 'bold', 'italics', 'soundz', 'vidz' or 'newline', found '" ++
            st1.current_tok ++ "'.")))
    else if isVariableEnd st.current_tok then parseVariableUse f st
    else if isCommentStart st.current_tok then parseComment f st
    else if st.current_tok != "" then parseText f st
    else some (Except.ok st)

/-- `parse_body`: recurse until the current token is `#kthxbye`.  When the
token stream is exhausted with no `#kthxbye` (current token empty) this
recursion never terminates in Rust, which the fuel models as `none`. -/
def parseBody : Nat → PState → PRes
  | 0, _ => none
  | f + 1, st =>
    if !isDocumentEnd st.current_tok then
      pbind (parseInnerBody f st) (parseBody f)
    else some (Except.ok st)

/-- `parse_lolcode`: comments, leading variable declarations, head, body. -/
def parseLolcode : Nat → PState → PRes
  | 0, _ => none
  | f + 1, st =>
    pbind (parseComments f st) fun st1 =>
    pbind (parseDefsLoop f st1) fun st2 =>
    pbind (parseHead f st2) fun st3 =>
    parseBody f st3

/-- Initial compiler state after `compile` tokenizes the source: token list
in source order, empty current token, line 1, one (global) scope frame. -/
def initState (source : String) : PState :=
  { toks := tokenize source, current_tok := "", current_line := 1,
    scope_stack := [[]] }

/-- The whole validation pipeline (`compile` + `start` + `parse`):
tokenize, fetch the first token, require `#hai`, parse the document,
require `#kthxbye`, and require no trailing tokens. -/
def runParse (fuel : Nat) (source : String) : PRes :=
  match nextToken (initState source) with
  | Except.error e => some (Except.error e)
  | Except.ok st =>
    if st.current_tok == "" then
      some (Except.error ⟨ErrKind.userErr, "User error: The provided sentence is empty."⟩)
    else if !(lower st.current_tok == "#hai") then
      some (Except.error (synAt st.current_line
        ("Expected document start '#hai', found '" ++ st.current_tok ++ "'.")))
    else
      match nextToken st with
      | Except.error e => some (Except.error e)
      | Except.ok st1 =>
        pbind (parseLolcode fuel st1) fun st2 =>
        if !(lower st2.current_tok == "#kthxbye") then
          some (Except.error (synAt st2.current_line
            ("Expected document end '#kthxbye', found '" ++ st2.current_tok ++ "'.")))
        else if !st2.toks.isEmpty then
          some (Except.error (synAt st2.current_line
            ("Additional tokens found after the document.")))
        else some (Except.ok st2)

/-- `true` iff the parser+scope analyzer accept the source at this fuel. -/
def parseAccepts (fuel : Nat) (source : String) : Bool :=
  match runParse fuel source with
  | some (Except.ok _) => true
  | _ => false

/-! ## Code generator (`LolcodeCompiler::to_html`)

The generator re-walks the token strings (source order) with its own flat
list of `VariableInfo` bindings — NOT a frame stack.  The Lean list keeps
the most recently pushed binding at the HEAD (the Rust `Vec` pushes at the
tail and reads `last()`).  A result can be a normal string, a panic
(`unwrap()` on `None`), or fuel exhaustion. -/

/-- Generator outcome: a value, a Rust panic, or fuel exhaustion. -/
inductive HRes (α : Type) where
  | ok (a : α)
  | panicked
  | fuelOut
deriving DecidableEq, Repr

/-- The variable-declaration recognizer of `to_html`, entered after an `#i`
token was popped: it pops up to six tokens (`haz` name `#it` `iz` value
`#mkay`), pushing a binding only when the whole shape matches; tokens popped
before a mismatch stay consumed.  Identical blocks appear at the top level
and inside the paragraph loop of the source. -/
def htmlDeclAfter : List String → List VariableInfo → List String × List VariableInfo
  | [], stack => ([], stack)
  | t1 :: rest, stack =>
    if lower t1 == "haz" then
      match rest with
      | [] => ([], stack)
      | n :: rest2 =>
        match rest2 with
        | [] => ([], stack)
        | t2 :: rest3 =>
          if lower t2 == "#it" then
            match rest3 with
            | [] => ([], stack)
            | t3 :: rest4 =>
              if lower t3 == "iz" then
                match rest4 with
                | [] => ([], stack)
                | v :: rest5 =>
                  match rest5 with
                  | [] => ([], stack)
                  | m :: rest6 =>
                    if lower m == "#mkay" then
                      (rest6, ⟨n, some v, 0⟩ :: stack)
                    else (rest6, stack)
              else (rest4, stack)
          else (rest3, stack)
    else (rest, stack)

/-- The variable-use emitter of `to_html`, entered after a `#lemme` token
was popped and with at least one more token available (the candidate `see`,
already popped here as `l`).  On `see` it pops the requested identifier,
DISCARDS it, reads the most recently pushed binding (`last().unwrap()`,
`none` = panic on an empty binding list or an absent value), and emits that
binding's value.  Identical blocks appear at the top level, in the
paragraph loop, in the bold loops and in the list-item loop. -/
def htmlUseAfter (l : String) (rest : List String) (stack : List VariableInfo)
    (html : String) : Option (List String × String) :=
  if lower l == "see" then
    match rest with
    | [] => some ([], html)
    | _requested :: rest2 =>
      match stack with
      | [] => none
      | v :: _ =>
        match v.value with
        | none => none
        | some s => some (rest2, html ++ " " ++ s)
  else some (rest, html)

/-- The comment loop of `to_html`: emit tokens until `#tldr`. -/
def genCommentLoop : List String → String → List String × String
  | [], html => ([], html)
  | t :: rest, html =>
    if lower t == "#tldr" then (rest, html ++ " -->\n")
    else genCommentLoop rest (html ++ " " ++ t)

/-- The title text loop of `to_html`: emit tokens until `#mkay`. -/
def genTitleLoop : List String → String → List String × String
  | [], html => ([], html)
  | t :: rest, html =>
    if lower t == "#mkay" then (rest, html ++ "</title>\n")
    else genTitleLoop rest (html ++ " " ++ t)

/-- The head loop of `to_html`: until `#oic`, recognizing `#gimmeh title`. -/
def genHeadLoop : Nat → List String → String → HRes (List String × String)
  | 0, _, _ => HRes.fuelOut
  | f + 1, toks, html =>
    match toks with
    | [] => HRes.ok ([], html)
    | ht :: rest =>
      if lower ht == "#oic" then HRes.ok (rest, html ++ "</head>\n")
      else if lower ht == "#gimmeh" then
        match rest with
        | [] => genHeadLoop f [] html
        | tt :: rest2 =>
          if lower tt == "title" then
            match genTitleLoop rest2 (html ++ "\n<title>") with
            | (rest3, html3) => genHeadLoop f rest3 html3
          else genHeadLoop f rest2 html
      else genHeadLoop f rest html

/-- The italics loop of `to_html` (no variable-use handling): text until
`#mkay`. -/
def genItalicsLoop : List String → String → List String × String
  | [], html => ([], html)
  | t :: rest, html =>
    if lower t == "#mkay" then (rest, html ++ " </i>")
    else genItalicsLoop rest (html ++ " " ++ t)

/-- The bold loop of `to_html`: handles `#lemme see`-uses (against the flat
binding list), closes on `#mkay`, emits other tokens verbatim. -/
def genBoldLoop : Nat → List String → List VariableInfo → String → HRes (List String × String)
  | 0, _, _, _ => HRes.fuelOut
  | f + 1, toks, stack, html =>
    match toks with
    | [] => HRes.ok ([], html)
    | bt :: rest =>
      if lower bt == "#lemme" then
        match rest with
        | [] => genBoldLoop f [] stack (html ++ " " ++ bt)
        | l :: rest2 =>
          match htmlUseAfter l rest2 stack html with
          | none => HRes.panicked
          | some (rest3, html3) => genBoldLoop f rest3 stack html3
      else if lower bt == "#mkay" then HRes.ok (rest, html ++ " </b>")
      else genBoldLoop f rest stack (html ++ " " ++ bt)

/-- The `#gimmeh` element dispatch of `to_html` (shared shape of the
paragraph-level and top-level blocks): newline, soundz, vidz, bold,
italics; an unrecognized element token is consumed with no effect. -/
def genGimmeh : Nat → String → List String → List VariableInfo → String →
    HRes (List String × String)
  | 0, _, _, _, _ => HRes.fuelOut
  | f + 1, el, toks, stack, html =>
    if lower el == "newline" then HRes.ok (toks, html ++ "\n<br/>\n")
    else if lower el == "soundz" then
      match toks with
      | [] => HRes.ok ([], html)
      | addr :: rest =>
        let html1 := html ++ "\n<audio controls>\n<source src=\"" ++ addr ++
          "\" type=\"audio/mpeg\">"
        match rest with
        | [] => HRes.ok ([], html1)
        | t :: rest2 =>
          if lower t == "#mkay" then HRes.ok (rest2, html1 ++ "</audio>\n")
          else HRes.ok (rest2, html1)
    else if lower el == "vidz" then
      match toks with
      | [] => HRes.ok ([], html)
      | addr :: rest =>
        let html1 := html ++ "\n<iframe src = " ++ addr ++ ">\n"
        match rest with
        | [] => HRes.ok ([], html1)
        | _t :: rest2 => HRes.ok (rest2, html1)
    else if lower el == "bold" then genBoldLoop f toks stack (html ++ " <b>")
    else if lower el == "italics" then
      match genItalicsLoop toks (html ++ " <i>") with
      | (rest', html') => HRes.ok (rest', html')
    else HRes.ok (toks, html)

/-- The list-item content loop of `to_html`: `#lemme see`-uses, `</li>` on
`#mkay`, other tokens verbatim. -/
def genItemLoop : Nat → List String → List VariableInfo → String → HRes (List String × String)
  | 0, _, _, _ => HRes.fuelOut
  | f + 1, toks, stack, html =>
    match toks with
    | [] => HRes.ok ([], html)
    | c :: rest =>
      if lower c == "#lemme" then
        match rest with
        | [] => genItemLoop f [] stack (html ++ " " ++ c)
        | l :: rest2 =>
          match htmlUseAfter l rest2 stack html with
          | none => HRes.panicked
          | some (rest3, html3) => genItemLoop f rest3 stack html3
      else if lower c == "#mkay" then HRes.ok (rest, html ++ "</li>\n")
      else genItemLoop f rest stack (html ++ " " ++ c)

/-- The list-element loop of `to_html`: until `#oic`, recognizing
`#gimmeh item` list items; other tokens are consumed silently. -/
def genListLoop : Nat → List String → List VariableInfo → String → HRes (List String × String)
  | 0, _, _, _ => HRes.fuelOut
  | f + 1, toks, stack, html =>
    match toks with
    | [] => HRes.ok ([], html)
    | lt :: rest =>
      if lower lt == "#oic" then HRes.ok (rest, html ++ "\n</ul>\n")
      else if lower lt == "#gimmeh" then
        match rest with
        | [] => genListLoop f [] stack html
        | it :: rest2 =>
          if lower it == "item" then
            match genItemLoop f rest2 stack (html ++ "\n<li>") with
            | HRes.ok (rest3, html3) => genListLoop f rest3 stack html3
            | HRes.panicked => HRes.panicked
            | HRes.fuelOut => HRes.fuelOut
          else genListLoop f rest2 stack html
      else genListLoop f rest stack html

/-- The paragraph loop of `to_html`.  On `#oic` it closes the paragraph and
pops one binding from the flat list — but only when more than one binding is
present.  `#i` declarations push onto the flat list; `#lemme see` uses read
the most recent binding; `#maek list` nests a list; `#gimmeh` dispatches an
element; other non-`#` tokens are emitted verbatim. -/
def genParaLoop : Nat → List String → List VariableInfo → String →
    HRes (List String × List VariableInfo × String)
  | 0, _, _, _ => HRes.fuelOut
  | f + 1, toks, stack, html =>
    match toks with
    | [] => HRes.ok ([], stack, html)
    | pt :: rest =>
      if lower pt == "#oic" then
        HRes.ok (rest, (if 1 < stack.length then stack.tail else stack),
          html ++ "</p>\n")
      else if lower pt == "#i" then
        match htmlDeclAfter rest stack with
        | (rest', stack') => genParaLoop f rest' stack' html
      else if lower pt == "#lemme" then
        match rest with
        | [] => genParaLoop f [] stack html
        | l :: rest2 =>
          match htmlUseAfter l rest2 stack html with
          | none => HRes.panicked
          | some (rest3, html3) => genParaLoop f rest3 stack html3
      else if lower pt == "#maek" then
        match rest with
        | [] => genParaLoop f [] stack html
        | lt :: rest2 =>
          if lower lt == "list" then
            match genListLoop f rest2 stack (html ++ "\n<ul>") with
            | HRes.ok (rest3, html3) => genParaLoop f rest3 stack html3
            | HRes.panicked => HRes.panicked
            | HRes.fuelOut => HRes.fuelOut
          else genParaLoop f rest2 stack html
      else if lower pt == "#gimmeh" then
        match rest with
        | [] => genParaLoop f [] stack html
        | el :: rest2 =>
          match genGimmeh f el rest2 stack html with
          | HRes.ok (rest3, html3) => genParaLoop f rest3 stack html3
          | HRes.panicked => HRes.panicked
          | HRes.fuelOut => HRes.fuelOut
      else if !startsHash pt then genParaLoop f rest stack (html ++ " " ++ pt)
      else genParaLoop f rest stack html

/-- The outer loop of `to_html` over the token strings. -/
def genLoop : Nat → List String → List VariableInfo → String → HRes String
  | 0, _, _, _ => HRes.fuelOut
  | f + 1, toks, stack, html =>
    match toks with
    | [] => HRes.ok html
    | tok :: rest =>
      if lower tok == "#hai" then
        genLoop f rest stack (html ++ "<!DOCTYPE html> \n<html>")
      else if lower tok == "#i" then
        match htmlDeclAfter rest stack with
        | (rest', stack') => genLoop f rest' stack' html
      else if lower tok == "#kthxbye" then HRes.ok (html ++ "\n</html>")
      else if lower tok == "#obtw" then
        match genCommentLoop rest (html ++ "\n<!--") with
        | (rest', html') => genLoop f rest' stack html'
      else if lower tok == "#maek" then
        match rest with
        | [] => genLoop f [] stack html
        | nt :: rest2 =>
          if lower nt == "head" then
            match genHeadLoop f rest2 (html ++ "\n<head>") with
            | HRes.ok (rest3, html3) => genLoop f rest3 stack html3
            | HRes.panicked => HRes.panicked
            | HRes.fuelOut => HRes.fuelOut
          else if lower nt == "paragraf" then
            match genParaLoop f rest2 stack (html ++ "\n<p>") with
            | HRes.ok (rest3, stack3, html3) => genLoop f rest3 stack3 html3
            | HRes.panicked => HRes.panicked
            | HRes.fuelOut => HRes.fuelOut
          else genLoop f rest2 stack html
      else if lower tok == "#lemme" then
        match rest with
        | [] => genLoop f [] stack html
        | l :: rest2 =>
          match htmlUseAfter l rest2 stack html with
          | none => HRes.panicked
          | some (rest3, html3) => genLoop f rest3 stack html3
      else if lower tok == "#gimmeh" then
        match rest with
        | [] => genLoop f [] stack html
        | el :: rest2 =>
          match genGimmeh f el rest2 stack html with
          | HRes.ok (rest3, html3) => genLoop f rest3 stack html3
          | HRes.panicked => HRes.panicked
          | HRes.fuelOut => HRes.fuelOut
      else if !startsHash tok then genLoop f rest stack (html ++ " " ++ tok)
      else genLoop f rest stack html

/-- `to_html` on a list of token strings: an empty binding list and the
initial `" "` html string, with fuel ample for the token count (every
iteration of every loop removes at least one token). -/
def toHtmlRun (toks : List String) : HRes String :=
  genLoop (8 * toks.length + 16) toks [] " "

/-- The full generation pass as `main` invokes it: `to_html` over the clone
of the tokenizer's token list. -/
def compileHtml (source : String) : HRes String :=
  toHtmlRun ((tokenize source).map Prod.fst)

/-! ## Auxiliary definitions for the verification -/

/-- Character-list test: `nd` starts the list `l`. -/
def chPre : List Char → List Char → Bool
  | [], _ => true
  | _ :: _, [] => false
  | a :: as, b :: bs => a == b && chPre as bs

/-- Character-list test: `nd` occurs contiguously inside `l`. -/
def chSub (nd : List Char) : List Char → Bool
  | [] => nd.isEmpty
  | c :: t => chPre nd (c :: t) || chSub nd t

/-- `hay` contains `nd` as a contiguous substring. -/
def strHas (hay nd : String) : Bool := chSub nd.data hay.data

/-- `hay` ends with `nd`. -/
def strEnds (hay nd : String) : Bool := chPre nd.data.reverse hay.data.reverse

/-- Spec-side free-text character class as amended: letters, digits, comma,
period, single quote, colon, question mark, exclamation mark, underscore,
forward slash, and space (the spec's published class additionally lists the
double quote, which the code's regex does not contain). -/
def specTextChar (c : Char) : Prop :=
  c.isAlpha = true ∨ c.isDigit = true ∨ c = ',' ∨ c = '.' ∨ c = '\'' ∨
  c = ':' ∨ c = '?' ∨ c = '!' ∨ c = '_' ∨ c = '/' ∨ c = ' '

/-- Spec-side address character class as amended: the free-text class with
`%` in place of the space. -/
def specAddrChar (c : Char) : Prop :=
  c.isAlpha = true ∨ c.isDigit = true ∨ c = ',' ∨ c = '.' ∨ c = '\'' ∨
  c = ':' ∨ c = '?' ∨ c = '!' ∨ c = '_' ∨ c = '/' ∨ c = '%'

instance (c : Char) : Decidable (specTextChar c) := by
  unfold specTextChar; infer_instance

instance (c : Char) : Decidable (specAddrChar c) := by
  unfold specAddrChar; infer_instance

/-- A parse result leaves the scope stack exactly as it was. -/
def ScopeEq (r : PRes) (st : PState) : Prop :=
  ∀ st', r = some (Except.ok st') → st'.scope_stack = st.scope_stack

/-- A parse result touches at most the innermost frame of the scope stack:
the frame count and everything below the innermost frame are unchanged. -/
def ScopeShape (r : PRes) (st : PState) : Prop :=
  ∀ st', r = some (Except.ok st') →
    st'.scope_stack.tail = st.scope_stack.tail ∧
    st'.scope_stack.length = st.scope_stack.length

/-! ## Concrete claim inputs -/

/-- The end-to-end token sequence of claim C2. -/
def c2src : String :=
  "#hai #i haz x #it iz hello #mkay #maek paragraf #lemme see x #mkay #oic #kthxbye"

/-- A document with a head block but no closing `#kthxbye` (claim C3). -/
def c3src : String := "#hai #maek head #gimmeh title hi #mkay #oic"

/-- The parser state reached on `c3src` when the head block has been parsed
and the token stream is exhausted: `parse_body` spins here forever. -/
def c3StuckState : PState :=
  { toks := [], current_tok := "", current_line := 1, scope_stack := [[]] }

/-- A document of the grammar shape doc-start, body (one text token), doc-end
with no head block (claim C4). -/
def c4src : String := "#hai hello #kthxbye"

/-- The end-to-end token sequence of claim C8. -/
def c8src : String := "#hai #maek head #gimmeh title hi #mkay #oic #kthxbye"

/-- The HTML string the generator produces for `c8src`. -/
def c8Out : String :=
  " <!DOCTYPE html> \n<html>\n<head>\n<title> hi</title>\n</head>\n\n</html>"

/-- A token sequence the parser and scope analyzer accept whose only
declaration is the valueless `haz` form, followed by a use (claim C10): the
generator's flat binding list stays empty and the use panics. -/
def c10src : String :=
  "#hai haz #maek head #gimmeh title hi #mkay #oic #lemme see haz #mkay #kthxbye"

/-- The generator output for `c2src` (generation alone, bypassing the
parser, substitutes `hello` into the paragraph as the spec describes). -/
def c2GenOut : String :=
  " <!DOCTYPE html> \n<html>\n<p> hello</p>\n\n</html>"

/-! ## Helper lemmas -/

/-- Both Rust regex classes agree with the amended spec-side free-text
class, character by character. -/
theorem specTextChar_iff (c : Char) : specTextChar c ↔ isTextChar c = true := by
  simp [isTextChar, specTextChar]; tauto

/-- The address class agrees with the amended spec-side address class. -/
theorem specAddrChar_iff (c : Char) : specAddrChar c ↔ isAddrChar c = true := by
  simp [isAddrChar, specAddrChar]; tauto

/-- No character of the address class is whitespace. -/
theorem addrChar_not_ws (c : Char) (h : isAddrChar c = true) :
    c.isWhitespace = false := by
  cases hq : c.isWhitespace
  · rfl
  · exfalso
    simp [Char.isWhitespace] at hq
    rcases hq with ((rfl | rfl) | rfl) | rfl <;> exact absurd h (by decide)

/-- From the stuck state (empty current token, empty stream) `parse_body`
returns for NO amount of fuel: the Rust recursion
`parse_body → parse_inner_body (no-op) → parse_body` never terminates. -/
theorem parseBody_stuck (fuel : Nat) : parseBody fuel c3StuckState = none := by
  induction fuel with
  | zero => rfl
  | succ f ih =>
    show pbind (parseInnerBody f c3StuckState) (parseBody f) = none
    cases f with
    | zero => rfl
    | succ g =>
      show pbind (some (Except.ok c3StuckState)) (parseBody (g + 1)) = none
      exact ih

/-! ## Claim theorems -/

/-- C1: During HTML generation, every variable-use sequence
(`#lemme see <identifier> #mkay`) is resolved to the most recently appended
entry of the generator's flat binding list, irrespective of the identifier
requested, and its stored value is emitted into the HTML string; and when
generation leaves a paragraph block, exactly one binding entry is popped if
more than one entry is present, and none otherwise.  Conjunct 1: the
emitted value is the head (= most recently appended) binding's value;
conjunct 2: the result is literally independent of the requested
identifier; conjunct 3: the paragraph-closing `#oic` step pops one entry
exactly when more than one is present. -/
theorem c1_generator_flat_resolution :
    (∀ (id : String) (rest : List String) (v : VariableInfo)
       (tl : List VariableInfo) (s html : String), v.value = some s →
       htmlUseAfter "see" (id :: rest) (v :: tl) html =
         some (rest, html ++ " " ++ s)) ∧
    (∀ (id idOther : String) (rest : List String) (stack : List VariableInfo)
       (html : String),
       htmlUseAfter "see" (id :: rest) stack html =
         htmlUseAfter "see" (idOther :: rest) stack html) ∧
    (∀ (fuel : Nat) (rest : List String) (stack : List VariableInfo)
       (html : String),
       genParaLoop (fuel + 1) ("#oic" :: rest) stack html =
         HRes.ok (rest, (if 1 < stack.length then stack.tail else stack),
           html ++ "</p>\n")) := by
  refine ⟨?_, ?_, ?_⟩
  · intro id rest v tl s html hv
    have h0 : htmlUseAfter "see" (id :: rest) (v :: tl) html =
        (match v.value with
         | none => none
         | some s => some (rest, html ++ " " ++ s)) := rfl
    rw [h0, hv]
  · intro id idOther rest stack html
    rfl
  · intro fuel rest stack html
    rfl

/-- C1 witness: the use resolution applied at a binding list whose most
recent entry is `haz = hello` while the requested identifier is `x`. -/
theorem c1_generator_flat_resolution_witness :
    htmlUseAfter "see" ["x"] [⟨"haz", some "hello", 0⟩] "<p>" =
      some ([], "<p> hello") :=
  c1_generator_flat_resolution.1 "x" [] ⟨"haz", some "hello", 0⟩ [] "hello" "<p>" rfl

/-- C2: the spec's end-to-end example
`#hai #i haz x #it iz hello #mkay #maek paragraf #lemme see x #mkay #oic #kthxbye`
is claimed to compile; the parser instead exits with
"Expected 'haz' after '#i', found '#i'" because `parse_variable_define`
compares the still-current `#i` marker against `haz` without advancing
first.  The generation pass alone on the very same token sequence emits the
substituted `hello` into the paragraph, which is the documented intent. -/
theorem c2_parser_rejects_spec_example :
    runParse 64 c2src =
      some (Except.error (synAt 1 ("Expected 'haz' after '#i', found '#i'."))) ∧
    compileHtml c2src = HRes.ok c2GenOut ∧
    strHas c2GenOut "hello" = true := ⟨rfl, rfl, rfl⟩

/-- C3: a document that lacks `#kthxbye` is claimed to always fail with a
syntax error naming the missing delimiter; on `c3src` the parser instead
fails to terminate: the whole pipeline returns the out-of-fuel marker for
EVERY fuel, and from the reached stuck state `parse_body` diverges for
every fuel (so no error message is ever produced). -/
theorem c3_missing_kthxbye_diverges :
    (∀ fuel, runParse fuel c3src = none) ∧
    (∀ fuel, parseBody fuel c3StuckState = none) := by
  refine ⟨?_, parseBody_stuck⟩
  intro fuel
  rcases Nat.lt_or_ge fuel 6 with h | h
  · interval_cases fuel <;> rfl
  · obtain ⟨m, rfl⟩ := Nat.exists_eq_add_of_le h
    rw [Nat.add_comm]
    show pbind (parseBody (m + 5) c3StuckState) _ = none
    rw [parseBody_stuck]
    rfl

/-- C4 counterexample: `#hai hello #kthxbye` has the form doc-start, valid
body with no head block, doc-end, yet the parser rejects it — `parse_head`
is invoked unconditionally and demands `#maek`. -/
theorem c4_headless_document_rejected :
    runParse 64 c4src =
      some (Except.error (synAt 1 ("Expected '#maek', found 'hello'."))) := rfl

/-- C4 amended: the head block is MANDATORY: whenever the current token at
the head position is not `#maek`, `parse_head` reports a syntax error (so
every document without a head block is rejected rather than accepted). -/
theorem c4_head_block_mandatory (fuel : Nat) (st : PState)
    (h : isMakeStart st.current_tok = false) :
    parseHead (fuel + 1) st =
      some (Except.error (synAt st.current_line
        ("Expected '#maek', found '" ++ st.current_tok ++ "'."))) := by
  simp [parseHead, h]

/-- C4 witness: the mandatory-head error at a concrete state. -/
theorem c4_head_block_mandatory_witness :
    parseHead 1 ⟨[], "hello", 2, [[]]⟩ =
      some (Except.error (synAt 2 ("Expected '#maek', found 'hello'."))) :=
  c4_head_block_mandatory 0 ⟨[], "hello", 2, [[]]⟩ rfl

/-- C8 counterexample: the compiledHTML for
`#hai #maek head #gimmeh title hi #mkay #oic #kthxbye` does NOT contain the
claimed contiguous substring `<head><title> hi</title></head>` — the
generator interleaves newlines between those tags. -/
theorem c8_exact_head_substring_absent :
    compileHtml c8src = HRes.ok c8Out ∧
    strHas c8Out "<head><title> hi</title></head>" = false := ⟨rfl, rfl⟩

/-- C8 amended: compilation of the example succeeds and the generated HTML
contains `<head>` newline `<title> hi</title>` newline `</head>` and closes
with `</html>`. -/
theorem c8_head_generation_with_newlines :
    parseAccepts 64 c8src = true ∧
    compileHtml c8src = HRes.ok c8Out ∧
    strHas c8Out "<head>\n<title> hi</title>\n</head>" = true ∧
    strEnds c8Out "</html>" = true := ⟨rfl, rfl, rfl, rfl⟩

/-- C9 counterexample: the double-quote string is rejected by both the
free-text and the address regex of the code, although the claimed character
class contains the double quote. -/
theorem c9_double_quote_not_matched :
    textMatch "\"" = false ∧ addressMatch "\"" = false := ⟨rfl, rfl⟩

/-- C9 amended: the free-text category accepts exactly the non-empty
strings over letters, digits, comma, period, single quote, colon, question
mark, exclamation mark, underscore, forward slash, and space (NO double
quote); the identifier category exactly the non-empty letter strings; the
address category the same class as free-text but with `%` in place of the
space, and hence an address never contains whitespace. -/
theorem c9_token_categories (s : String) :
    (textMatch s = true ↔ s.data ≠ [] ∧ ∀ c ∈ s.data, specTextChar c) ∧
    (varDefMatch s = true ↔ s.data ≠ [] ∧ ∀ c ∈ s.data, c.isAlpha = true) ∧
    (addressMatch s = true ↔ s.data ≠ [] ∧ ∀ c ∈ s.data, specAddrChar c) ∧
    (addressMatch s = true → ∀ c ∈ s.data, c.isWhitespace = false) := by
  refine ⟨?_, ?_, ?_, ?_⟩
  · simp [textMatch, List.all_eq_true, List.isEmpty_iff, specTextChar_iff]
  · simp [varDefMatch, List.all_eq_true, List.isEmpty_iff]
  · simp [addressMatch, List.all_eq_true, List.isEmpty_iff, specAddrChar_iff]
  · intro h c hc
    have h2 : isAddrChar c = true := by
      simp [addressMatch, List.all_eq_true] at h
      exact h.2 c hc
    exact addrChar_not_ws c h2

/-- C9 witness: the characterization applied at concrete tokens. -/
theorem c9_token_categories_witness :
    textMatch "a,b" = true ∧ varDefMatch "abc" = true ∧
    addressMatch "a%b" = true ∧
    ∀ c ∈ ("a%b" : String).data, c.isWhitespace = false :=
  ⟨(c9_token_categories "a,b").1.mpr (by decide),
   (c9_token_categories "abc").2.1.mpr (by decide),
   (c9_token_categories "a%b").2.2.1.mpr (by decide),
   (c9_token_categories "a%b").2.2.2 (by decide)⟩

/-- C10: the generator appends a binding to its flat list only for the full
`#i`-marked declaration shape (conjunct 3: after the `#i` trigger,
`htmlDeclAfter` grows the binding list exactly when the next tokens are
`haz`, a name, `#it`, `iz`, a value, `#mkay`); consequently there is a
token sequence the parser and scope analyzer accept — `c10src`, whose only
declaration is the valueless `haz` form — on which `to_html` reaches a
variable use with an empty binding list and panics on `unwrap` instead of
returning an HTML string (conjuncts 1 and 2). -/
theorem c10_generator_panics_on_valueless_declaration :
    parseAccepts 64 c10src = true ∧
    compileHtml c10src = HRes.panicked ∧
    (∀ (toks : List String) (stack : List VariableInfo),
      (htmlDeclAfter toks stack).2 = stack ∨
      ∃ t1 n t2 t3 v m rest, toks = t1 :: n :: t2 :: t3 :: v :: m :: rest ∧
        lower t1 = "haz" ∧ lower t2 = "#it" ∧ lower t3 = "iz" ∧
        lower m = "#mkay" ∧
        htmlDeclAfter toks stack = (rest, ⟨n, some v, 0⟩ :: stack)) := by
  refine ⟨rfl, rfl, ?_⟩
  intro toks stack
  rcases toks with _ | ⟨t1, _ | ⟨n, _ | ⟨t2, _ | ⟨t3, _ | ⟨v, _ | ⟨m, rest⟩⟩⟩⟩⟩⟩
  · exact Or.inl rfl
  · exact Or.inl (by simp only [htmlDeclAfter]; (repeat' split) <;> rfl)
  · exact Or.inl (by simp only [htmlDeclAfter]; (repeat' split) <;> rfl)
  · exact Or.inl (by simp only [htmlDeclAfter]; (repeat' split) <;> rfl)
  · exact Or.inl (by simp only [htmlDeclAfter]; (repeat' split) <;> rfl)
  · exact Or.inl (by simp only [htmlDeclAfter]; (repeat' split) <;> rfl)
  · by_cases h1 : lower t1 = "haz"
    · by_cases h2 : lower t2 = "#it"
      · by_cases h3 : lower t3 = "iz"
        · by_cases h4 : lower m = "#mkay"
          · exact Or.inr ⟨t1, n, t2, t3, v, m, rest, rfl, h1, h2, h3, h4,
              by simp [htmlDeclAfter, h1, h2, h3, h4]⟩
          · exact Or.inl (by simp [htmlDeclAfter, h1, h2, h3, h4])
        · exact Or.inl (by simp [htmlDeclAfter, h1, h2, h3])
      · exact Or.inl (by simp [htmlDeclAfter, h1, h2])
    · exact Or.inl (by simp [htmlDeclAfter, h1])

/-! ## Scope-preservation lemmas

`ScopeEq` for every parse routine that never calls `push_scope`,
`pop_scope` or `declare_variable`; `ScopeShape` for `parse_variable_define`
(which mutates only the innermost frame) and for the paragraph content
loop. -/

/-- `next_token` never touches the scope stack. -/
theorem nextToken_scope (st st' : PState) (h : nextToken st = Except.ok st') :
    st'.scope_stack = st.scope_stack := by
  unfold nextToken at h
  rcases hts : st.toks with _ | ⟨⟨cand, line⟩, rest⟩
  · rw [hts] at h
    cases h
    rfl
  · rw [hts] at h
    by_cases hl : lexLookup cand
    · simp only [hl, if_true] at h
      cases h
      rfl
    · simp [hl] at h

theorem scopeEq_noneRes (st : PState) : ScopeEq none st := by
  intro st' h
  exact Option.noConfusion h

theorem scopeEq_err (st : PState) (e : Err) : ScopeEq (some (Except.error e)) st := by
  intro st' h
  injection h with h1
  exact Except.noConfusion h1

theorem scopeEq_okSelf (st : PState) : ScopeEq (some (Except.ok st)) st := by
  intro st' h
  injection h with h1
  injection h1 with h2
  rw [← h2]

theorem scopeEq_nextRes (st : PState) : ScopeEq (some (nextToken st)) st := by
  intro st' h
  injection h with h1
  exact nextToken_scope st st' h1

theorem scopeEq_pbind {x : PRes} {st : PState} {k : PState → PRes}
    (hx : ScopeEq x st) (hk : ∀ st1, ScopeEq (k st1) st1) :
    ScopeEq (pbind x k) st := by
  intro st' h
  match hv : x with
  | none =>
    exact Option.noConfusion h
  | some (Except.error e) =>
    have h1 : some (Except.error e) = some (Except.ok st') := h
    injection h1 with h2
    exact Except.noConfusion h2
  | some (Except.ok st1) =>
    have h2 : k st1 = some (Except.ok st') := h
    exact (hk st1 st' h2).trans (hx st1 rfl)

theorem scopeShape_of_scopeEq {r : PRes} {st : PState} (h : ScopeEq r st) :
    ScopeShape r st := by
  intro st' hr
  rw [h st' hr]
  exact ⟨rfl, rfl⟩

theorem scopeShape_pbind {x : PRes} {st : PState} {k : PState → PRes}
    (hx : ScopeShape x st) (hk : ∀ st1, ScopeShape (k st1) st1) :
    ScopeShape (pbind x k) st := by
  intro st' h
  match hv : x with
  | none =>
    exact Option.noConfusion h
  | some (Except.error e) =>
    have h1 : some (Except.error e) = some (Except.ok st') := h
    injection h1 with h2
    exact Except.noConfusion h2
  | some (Except.ok st1) =>
    have h2 : k st1 = some (Except.ok st') := h
    obtain ⟨ht1, hl1⟩ := hx st1 rfl
    obtain ⟨ht2, hl2⟩ := hk st1 st' h2
    exact ⟨ht2.trans ht1, hl2.trans hl1⟩

theorem parseText_scope (fuel : Nat) : ∀ st, ScopeEq (parseText fuel st) st := by
  induction fuel with
  | zero => intro st; exact scopeEq_noneRes st
  | succ f ih =>
    intro st
    simp only [parseText]
    split
    · split
      · exact scopeEq_err _ _
      · exact scopeEq_pbind (scopeEq_nextRes st) ih
    · exact scopeEq_okSelf st

theorem titleLoop_scope (fuel : Nat) : ∀ st, ScopeEq (titleLoop fuel st) st := by
  induction fuel with
  | zero => intro st; exact scopeEq_noneRes st
  | succ f ih =>
    intro st
    simp only [titleLoop]
    split
    · split
      · exact scopeEq_err _ _
      · exact scopeEq_pbind (parseText_scope f st) ih
    · exact scopeEq_okSelf st

theorem parseTitle_scope (fuel : Nat) (st : PState) : ScopeEq (parseTitle fuel st) st := by
  cases fuel with
  | zero => exact scopeEq_noneRes st
  | succ f =>
    simp only [parseTitle]
    split
    · exact scopeEq_err _ _
    · refine scopeEq_pbind (scopeEq_nextRes st) (fun st1 => ?_)
      split
      · exact scopeEq_err _ _
      · refine scopeEq_pbind (scopeEq_nextRes st1) (fun st2 => ?_)
        exact scopeEq_pbind (titleLoop_scope f st2) (fun st3 => scopeEq_nextRes st3)

theorem parseHead_scope (fuel : Nat) (st : PState) : ScopeEq (parseHead fuel st) st := by
  cases fuel with
  | zero => exact scopeEq_noneRes st
  | succ f =>
    simp only [parseHead]
    split
    · exact scopeEq_err _ _
    · refine scopeEq_pbind (scopeEq_nextRes st) (fun st1 => ?_)
      split
      · exact scopeEq_err _ _
      · refine scopeEq_pbind (scopeEq_nextRes st1) (fun st2 => ?_)
        refine scopeEq_pbind (parseTitle_scope f st2) (fun st3 => ?_)
        split
        · exact scopeEq_err _ _
        · exact scopeEq_nextRes st3

theorem parseVariableUse_scope (fuel : Nat) (st : PState) :
    ScopeEq (parseVariableUse fuel st) st := by
  cases fuel with
  | zero => exact scopeEq_noneRes st
  | succ f =>
    simp only [parseVariableUse]
    split
    · exact scopeEq_err _ _
    · refine scopeEq_pbind (scopeEq_nextRes st) (fun st1 => ?_)
      refine scopeEq_pbind ?_ (fun st2 => ?_)
      · split
        · split
          · exact scopeEq_err _ _
          · exact scopeEq_nextRes st1
        · exact scopeEq_okSelf st1
      · split
        · exact scopeEq_err _ _
        · split
          · exact scopeEq_err _ _
          · refine scopeEq_pbind (scopeEq_nextRes st2) (fun st3 => ?_)
            split
            · exact scopeEq_err _ _
            · exact scopeEq_nextRes st3

theorem parseNewline_scope (fuel : Nat) (st : PState) :
    ScopeEq (parseNewline fuel st) st := by
  cases fuel with
  | zero => exact scopeEq_noneRes st
  | succ f =>
    simp only [parseNewline]
    split
    · exact scopeEq_err _ _
    · exact scopeEq_okSelf st

theorem parseAudio_scope (fuel : Nat) (st : PState) :
    ScopeEq (parseAudio fuel st) st := by
  cases fuel with
  | zero => exact scopeEq_noneRes st
  | succ f =>
    simp only [parseAudio]
    split
    · exact scopeEq_err _ _
    · refine scopeEq_pbind (scopeEq_nextRes st) (fun st1 => ?_)
      split
      · exact scopeEq_err _ _
      · refine scopeEq_pbind (scopeEq_nextRes st1) (fun st2 => ?_)
        split
        · exact scopeEq_err _ _
        · refine scopeEq_pbind (scopeEq_nextRes st2) (fun st3 => ?_)
          split
          · exact scopeEq_err _ _
          · exact scopeEq_nextRes st3

theorem parseVideo_scope (fuel : Nat) (st : PState) :
    ScopeEq (parseVideo fuel st) st := by
  cases fuel with
  | zero => exact scopeEq_noneRes st
  | succ f =>
    simp only [parseVideo]
    split
    · exact scopeEq_err _ _
    · refine scopeEq_pbind (scopeEq_nextRes st) (fun st1 => ?_)
      split
      · exact scopeEq_err _ _
      · refine scopeEq_pbind (scopeEq_nextRes st1) (fun st2 => ?_)
        split
        · exact scopeEq_err _ _
        · exact scopeEq_nextRes st2

theorem parseBold_scope (fuel : Nat) (st : PState) :
    ScopeEq (parseBold fuel st) st := by
  cases fuel with
  | zero => exact scopeEq_noneRes st
  | succ f =>
    simp only [parseBold]
    split
    · exact scopeEq_err _ _
    · refine scopeEq_pbind (scopeEq_nextRes st) (fun st1 => ?_)
      refine scopeEq_pbind ?_ (fun st2 => scopeEq_nextRes st2)
      split
      · exact parseVariableUse_scope f st1
      · exact parseText_scope f st1

theorem parseItalics_scope (fuel : Nat) (st : PState) :
    ScopeEq (parseItalics fuel st) st := by
  cases fuel with
  | zero => exact scopeEq_noneRes st
  | succ f =>
    simp only [parseItalics]
    split
    · exact scopeEq_err _ _
    · refine scopeEq_pbind (scopeEq_nextRes st) (fun st1 => ?_)
      refine scopeEq_pbind ?_ (fun st2 => scopeEq_nextRes st2)
      split
      · exact parseVariableUse_scope f st1
      · exact parseText_scope f st1

theorem parseInnerList_scope (fuel : Nat) (st : PState) :
    ScopeEq (parseInnerList fuel st) st := by
  cases fuel with
  | zero => exact scopeEq_noneRes st
  | succ f =>
    simp only [parseInnerList]
    split
    · refine scopeEq_pbind ?_ (fun st2 => ?_)
      · split
        · refine scopeEq_pbind (scopeEq_nextRes st) (fun st1 => ?_)
          split
          · exact parseBold_scope f st1
          · split
            · exact parseItalics_scope f st1
            · exact scopeEq_okSelf st1
        · exact scopeEq_okSelf st
      · exact scopeEq_pbind (parseText_scope f st2)
          (fun st3 => parseVariableUse_scope f st3)
    · exact scopeEq_okSelf st

theorem parseItem_scope (fuel : Nat) (st : PState) :
    ScopeEq (parseItem fuel st) st := by
  cases fuel with
  | zero => exact scopeEq_noneRes st
  | succ f =>
    simp only [parseItem]
    split
    · exact scopeEq_err _ _
    · refine scopeEq_pbind (scopeEq_nextRes st) (fun st1 => ?_)
      split
      · exact scopeEq_err _ _
      · refine scopeEq_pbind (scopeEq_nextRes st1) (fun st2 => ?_)
        refine scopeEq_pbind (parseInnerList_scope f st2) (fun st3 => ?_)
        split
        · exact scopeEq_err _ _
        · exact scopeEq_okSelf st3

theorem parseListItems_scope (fuel : Nat) : ∀ st, ScopeEq (parseListItems fuel st) st := by
  induction fuel with
  | zero => intro st; exact scopeEq_noneRes st
  | succ f ih =>
    intro st
    simp only [parseListItems]
    split
    · exact scopeEq_pbind (parseItem_scope f st) ih
    · exact scopeEq_okSelf st

theorem parseList_scope (fuel : Nat) (st : PState) :
    ScopeEq (parseList fuel st) st := by
  cases fuel with
  | zero => exact scopeEq_noneRes st
  | succ f =>
    simp only [parseList]
    split
    · exact scopeEq_err _ _
    · refine scopeEq_pbind (scopeEq_nextRes st) (fun st1 => ?_)
      split
      · exact scopeEq_err _ _
      · refine scopeEq_pbind (scopeEq_nextRes st1) (fun st2 => ?_)
        refine scopeEq_pbind (parseListItems_scope f st2) (fun st3 => ?_)
        split
        · exact scopeEq_err _ _
        · exact scopeEq_nextRes st3

theorem parseInnerText_scope (fuel : Nat) (st : PState) :
    ScopeEq (parseInnerText fuel st) st := by
  cases fuel with
  | zero => exact scopeEq_noneRes st
  | succ f =>
    simp only [parseInnerText]
    split
    · exact parseVariableUse_scope f st
    · split
      · refine scopeEq_pbind (scopeEq_nextRes st) (fun st1 => ?_)
        split
        · exact parseBold_scope f st1
        · split
          · exact parseItalics_scope f st1
          · split
            · exact parseNewline_scope f st1
            · split
              · exact parseAudio_scope f st1
              · split
                · exact parseVideo_scope f st1
                · exact scopeEq_err _ _
      · split
        · exact scopeEq_pbind (scopeEq_nextRes st) (fun st1 => parseList_scope f st1)
        · split
          · exact parseText_scope f st
          · exact scopeEq_okSelf st

theorem parseInnerParagraph_scope (fuel : Nat) (st : PState) :
    ScopeEq (parseInnerParagraph fuel st) st := by
  cases fuel with
  | zero => exact scopeEq_noneRes st
  | succ f =>
    simp only [parseInnerParagraph]
    refine scopeEq_pbind (parseInnerText_scope f st) (fun st1 => ?_)
    split
    · exact scopeEq_nextRes st1
    · exact scopeEq_okSelf st1

/-- `declare_variable` mutates at most the innermost frame. -/
theorem declareVariable_shape (st : PState) (n : String) (v : Option String) (l : Nat) :
    ScopeShape (some (declareVariable st n v l)) st := by
  intro st' h
  rcases hsc : st.scope_stack with _ | ⟨fr, rest⟩
  · have he : declareVariable st n v l = Except.ok st := by
      simp [declareVariable, hsc]
    rw [he] at h
    injection h with h1
    injection h1 with h2
    rw [← h2, hsc]
    exact ⟨rfl, rfl⟩
  · rcases hf : frameFind fr n with _ | vi
    · have he : declareVariable st n v l =
          Except.ok { st with scope_stack := ((n, ⟨n, v, l⟩) :: fr) :: rest } := by
        simp [declareVariable, hsc, hf]
      rw [he] at h
      injection h with h1
      injection h1 with h2
      rw [← h2]
      exact ⟨rfl, rfl⟩
    · have he : declareVariable st n v l =
          Except.error ⟨ErrKind.semErr, dupErrMsg l n vi.line_defined⟩ := by
        simp [declareVariable, hsc, hf]
      rw [he] at h
      injection h with h1
      exact Except.noConfusion h1

/-- `parse_variable_define` mutates at most the innermost frame. -/
theorem parseVariableDefine_shape (fuel : Nat) (st : PState) :
    ScopeShape (parseVariableDefine fuel st) st := by
  cases fuel with
  | zero => intro st' h; exact Option.noConfusion h
  | succ f =>
    simp only [parseVariableDefine]
    refine scopeShape_pbind ?_ (fun st1 => ?_)
    · split
      · split
        · exact scopeShape_of_scopeEq (scopeEq_err _ _)
        · exact scopeShape_of_scopeEq (scopeEq_nextRes st)
      · exact scopeShape_of_scopeEq (scopeEq_okSelf st)
    · split
      · exact scopeShape_of_scopeEq (scopeEq_err _ _)
      · refine scopeShape_pbind (scopeShape_of_scopeEq (scopeEq_nextRes st1))
          (fun st2 => ?_)
        split
        · refine scopeShape_pbind (scopeShape_of_scopeEq (scopeEq_nextRes st2))
            (fun st3 => ?_)
          refine scopeShape_pbind ?_ (fun st4 => ?_)
          · split
            · split
              · exact scopeShape_of_scopeEq (scopeEq_err _ _)
              · exact scopeShape_of_scopeEq (scopeEq_nextRes st3)
            · exact scopeShape_of_scopeEq (scopeEq_okSelf st3)
          · split
            · exact scopeShape_of_scopeEq (scopeEq_err _ _)
            · refine scopeShape_pbind (scopeShape_of_scopeEq (scopeEq_nextRes st4))
                (fun st5 => ?_)
              split
              · exact scopeShape_of_scopeEq (scopeEq_err _ _)
              · refine scopeShape_pbind (scopeShape_of_scopeEq (scopeEq_nextRes st5))
                  (fun st6 => ?_)
                exact declareVariable_shape st6 _ _ _
        · exact declareVariable_shape st2 _ _ _

/-- The paragraph content loop mutates at most the innermost frame. -/
theorem paraLoopP_shape (fuel : Nat) : ∀ st, ScopeShape (paraLoopP fuel st) st := by
  induction fuel with
  | zero => intro st st' h; exact Option.noConfusion h
  | succ f ih =>
    intro st
    simp only [paraLoopP]
    split
    · split
      · exact scopeShape_of_scopeEq (scopeEq_err _ _)
      · split
        · exact scopeShape_pbind (parseVariableDefine_shape f st) ih
        · exact scopeShape_pbind
            (scopeShape_of_scopeEq (parseInnerParagraph_scope f st)) ih
    · exact scopeShape_of_scopeEq (scopeEq_okSelf st)

/-- Inversion for a successful `pbind`. -/
theorem pbind_ok_inv {x : PRes} {k : PState → PRes} {st' : PState}
    (h : pbind x k = some (Except.ok st')) :
    ∃ st1, x = some (Except.ok st1) ∧ k st1 = some (Except.ok st') := by
  match hv : x with
  | none => exact Option.noConfusion h
  | some (Except.error e) =>
    have h1 : some (Except.error e) = some (Except.ok st') := h
    injection h1 with h2
    exact Except.noConfusion h2
  | some (Except.ok st1) => exact ⟨st1, rfl, h⟩

/-- `pop_scope` on more than one frame removes exactly the innermost. -/
theorem popScope_scope_of_lt (st : PState) (h : 1 < st.scope_stack.length) :
    (popScope st).scope_stack = st.scope_stack.tail := by
  simp [popScope, h]

/-- `parse_paragraph` pushes one frame on entry and pops one on leaving, so
on a successful return the scope stack is exactly the one it started from
(the declarations inside the paragraph land in the pushed frame, which the
final pop removes). -/
theorem parseParagraph_scope (fuel : Nat) (st : PState) (hne : st.scope_stack ≠ []) :
    ScopeEq (parseParagraph fuel st) st := by
  cases fuel with
  | zero => exact scopeEq_noneRes st
  | succ f =>
    intro st' h
    simp only [parseParagraph] at h
    split at h
    · simp at h
    · obtain ⟨st1, hx1, hk1⟩ := pbind_ok_inv h
      injection hx1 with hnt1
      have hs1 : st1.scope_stack = [] :: st.scope_stack := by
        have hq := nextToken_scope (pushScope st) st1 hnt1
        rw [hq]
        rfl
      obtain ⟨st2, hx2, hk2⟩ := pbind_ok_inv hk1
      obtain ⟨htail, hlen⟩ := paraLoopP_shape f st1 st2 hx2
      split at hk2
      · simp at hk2
      · obtain ⟨st3, hx3, hk3⟩ := pbind_ok_inv hk2
        injection hx3 with hnt3
        have hs3 : st3.scope_stack = st2.scope_stack := nextToken_scope st2 st3 hnt3
        injection hk3 with h1
        injection h1 with h2
        have hlen2 : st2.scope_stack.length = st.scope_stack.length + 1 := by
          rw [hlen, hs1]
          rfl
        have htail2 : st2.scope_stack.tail = st.scope_stack := by
          rw [htail, hs1]
          rfl
        have hlt : 1 < st3.scope_stack.length := by
          rw [hs3, hlen2]
          have hz : 0 < st.scope_stack.length := List.length_pos.mpr hne
          omega
        rw [← h2, popScope_scope_of_lt st3 hlt, hs3, htail2]

/-- Variable lookup returns the binding of the first (innermost-first)
frame that holds the name, skipping all nearer frames that lack it. -/
theorem lookupVariable_first (pre : List Frame) (fr : Frame) (rest : List Frame)
    (name : String) (vi : VariableInfo)
    (hpre : ∀ g ∈ pre, frameFind g name = none)
    (hfr : frameFind fr name = some vi) :
    lookupVariable (pre ++ fr :: rest) name = some vi := by
  induction pre with
  | nil => simp [lookupVariable, hfr]
  | cons g gs ih =>
    have hg : frameFind g name = none := hpre g (by simp)
    simp only [List.cons_append, lookupVariable, hg]
    exact ih fun g' hg' => hpre g' (List.mem_cons_of_mem g hg')

/-- Variable lookup fails exactly when no enclosing frame holds the name. -/
theorem lookupVariable_absent (frames : List Frame) (name : String)
    (h : ∀ g ∈ frames, frameFind g name = none) :
    lookupVariable frames name = none := by
  induction frames with
  | nil => rfl
  | cons g gs ih =>
    have hg : frameFind g name = none := h g (by simp)
    simp only [lookupVariable, hg]
    exact ih fun g' hg' => h g' (List.mem_cons_of_mem g hg')

/-- C5: declaring a variable whose name already exists in the current
innermost scope frame fails with a semantic error that cites the line of
the earlier declaration (conjunct 1); the collision check consults ONLY the
innermost frame, so declaring a name regardless of what outer frames
contain — in particular shadowing a name bound only in an outer frame —
succeeds (conjunct 2); and after the frame holding a name has been popped,
declaring the name again in the now-innermost outer frame succeeds
(conjunct 3). -/
theorem c5_declare_innermost_only :
    (∀ (st : PState) (name : String) (v : Option String) (l : Nat)
       (fr : Frame) (rest : List Frame) (vi : VariableInfo),
       st.scope_stack = fr :: rest → frameFind fr name = some vi →
       declareVariable st name v l =
         Except.error ⟨ErrKind.semErr, dupErrMsg l name vi.line_defined⟩) ∧
    (∀ (st : PState) (name : String) (v : Option String) (l : Nat)
       (fr : Frame) (rest : List Frame),
       st.scope_stack = fr :: rest → frameFind fr name = none →
       declareVariable st name v l =
         Except.ok { st with
           scope_stack := ((name, ⟨name, v, l⟩) :: fr) :: rest }) ∧
    (∀ (st : PState) (name : String) (v : Option String) (l : Nat)
       (frIn frOut : Frame) (rest : List Frame),
       st.scope_stack = frIn :: frOut :: rest → frameFind frOut name = none →
       declareVariable (popScope st) name v l =
         Except.ok { st with
           scope_stack := ((name, ⟨name, v, l⟩) :: frOut) :: rest }) := by
  refine ⟨?_, ?_, ?_⟩
  · intro st name v l fr rest vi h1 h2
    simp [declareVariable, h1, h2]
  · intro st name v l fr rest h1 h2
    simp [declareVariable, h1, h2]
  · intro st name v l frIn frOut rest h1 h2
    have hp : popScope st = { st with scope_stack := frOut :: rest } := by
      simp [popScope, h1]
    rw [hp]
    simp [declareVariable, h2]

/-- C5 witness: a duplicate declaration of `haz` at line 5 against an
earlier one at line 3 is rejected citing line 3; the same declaration over
a fresh innermost frame that shadows an outer `haz` succeeds; and after the
inner frame is popped the outer frame accepts a new `haz`. -/
theorem c5_declare_innermost_only_witness :
    declareVariable ⟨[], "", 1, [[("haz", ⟨"haz", none, 3⟩)]]⟩ "haz" (some "x") 5 =
      Except.error ⟨ErrKind.semErr, dupErrMsg 5 "haz" 3⟩ ∧
    declareVariable ⟨[], "", 1, [[], [("haz", ⟨"haz", none, 3⟩)]]⟩ "haz" none 7 =
      Except.ok ⟨[], "", 1,
        [[("haz", ⟨"haz", none, 7⟩)], [("haz", ⟨"haz", none, 3⟩)]]⟩ ∧
    declareVariable (popScope ⟨[], "", 1, [[("haz", ⟨"haz", none, 3⟩)], []]⟩)
        "haz" none 9 =
      Except.ok ⟨[], "", 1, [[("haz", ⟨"haz", none, 9⟩)]]⟩ :=
  ⟨c5_declare_innermost_only.1 ⟨[], "", 1, [[("haz", ⟨"haz", none, 3⟩)]]⟩
      "haz" (some "x") 5 [("haz", ⟨"haz", none, 3⟩)] [] ⟨"haz", none, 3⟩ rfl rfl,
   c5_declare_innermost_only.2.1 ⟨[], "", 1, [[], [("haz", ⟨"haz", none, 3⟩)]]⟩
      "haz" none 7 [] [[("haz", ⟨"haz", none, 3⟩)]] rfl rfl,
   c5_declare_innermost_only.2.2 ⟨[], "", 1, [[("haz", ⟨"haz", none, 3⟩)], []]⟩
      "haz" none 9 [("haz", ⟨"haz", none, 3⟩)] [] [] rfl rfl⟩

/-- C6: variable lookup during parsing searches the scope frames from
innermost to outermost and returns the first binding found (conjuncts 1 and
2); a `#lemme see <id> #mkay` use whose identifier is bound in no enclosing
frame fails with a semantic error whose message carries the remediation
hint naming the declaration syntax (`#I HAZ <id>` / `HAZ <id>`, conjunct
4); a use whose identifier is bound in any enclosing frame — in particular
only in an enclosing non-innermost frame — succeeds and consumes through
the closing `#mkay` (conjunct 3). -/
theorem c6_lookup_innermost_to_outermost :
    (∀ (pre : List Frame) (fr : Frame) (rest : List Frame) (name : String)
       (vi : VariableInfo),
       (∀ g ∈ pre, frameFind g name = none) → frameFind fr name = some vi →
       lookupVariable (pre ++ fr :: rest) name = some vi) ∧
    (∀ (frames : List Frame) (name : String),
       (∀ g ∈ frames, frameFind g name = none) →
       lookupVariable frames name = none) ∧
    (∀ (fuel : Nat) (toksRest : List (String × Nat)) (sc : List Frame)
       (line l1 l2 l3 : Nat) (id : String) (vi : VariableInfo),
       lexLookup id = true → isVarIdent id = true →
       lookupVariable sc id = some vi →
       parseVariableUse (fuel + 1)
         ⟨("see", l1) :: (id, l2) :: ("#mkay", l3) :: toksRest, "#lemme", line, sc⟩ =
         some (nextToken ⟨toksRest, "#mkay", l3, sc⟩)) ∧
    (∀ (fuel : Nat) (toksRest : List (String × Nat)) (sc : List Frame)
       (line l1 l2 l3 : Nat) (id : String),
       lexLookup id = true → isVarIdent id = true →
       lookupVariable sc id = none →
       parseVariableUse (fuel + 1)
         ⟨("see", l1) :: (id, l2) :: ("#mkay", l3) :: toksRest, "#lemme", line, sc⟩ =
         some (Except.error ⟨ErrKind.semErr, useErrMsg l2 id⟩)) := by
  refine ⟨lookupVariable_first, lookupVariable_absent, ?_, ?_⟩
  · intro fuel toksRest sc line l1 l2 l3 id vi hlex hid hlook
    have h1 : nextToken ⟨("see", l1) :: (id, l2) :: ("#mkay", l3) :: toksRest,
        "#lemme", line, sc⟩ =
        Except.ok ⟨(id, l2) :: ("#mkay", l3) :: toksRest, "see", l1, sc⟩ := rfl
    have h2 : nextToken ⟨(id, l2) :: ("#mkay", l3) :: toksRest, "see", l1, sc⟩ =
        Except.ok ⟨("#mkay", l3) :: toksRest, id, l2, sc⟩ := by
      simp [nextToken, hlex]
    have h3 : nextToken ⟨("#mkay", l3) :: toksRest, id, l2, sc⟩ =
        Except.ok ⟨toksRest, "#mkay", l3, sc⟩ := rfl
    have e1 : isVariableEnd "#lemme" = true := rfl
    have e2 : (lower "#lemme" == "#lemme") = true := rfl
    have e3 : (lower "see" != "see") = false := rfl
    have e4 : isMkayEnd "#mkay" = true := rfl
    simp [parseVariableUse, h1, h2, h3, e1, e2, e3, e4, pbind, hid, hlook]
  · intro fuel toksRest sc line l1 l2 l3 id hlex hid hlook
    have h1 : nextToken ⟨("see", l1) :: (id, l2) :: ("#mkay", l3) :: toksRest,
        "#lemme", line, sc⟩ =
        Except.ok ⟨(id, l2) :: ("#mkay", l3) :: toksRest, "see", l1, sc⟩ := rfl
    have h2 : nextToken ⟨(id, l2) :: ("#mkay", l3) :: toksRest, "see", l1, sc⟩ =
        Except.ok ⟨("#mkay", l3) :: toksRest, id, l2, sc⟩ := by
      simp [nextToken, hlex]
    have e1 : isVariableEnd "#lemme" = true := rfl
    have e2 : (lower "#lemme" == "#lemme") = true := rfl
    have e3 : (lower "see" != "see") = false := rfl
    simp [parseVariableUse, h1, h2, e1, e2, e3, pbind, hid, hlook]

/-- C6 witness: lookup skips an inner frame without the name and finds
`haz` in the outer frame; a use of `haz` bound only in the outer frame
succeeds; a use of unbound `x` yields the semantic error with the hint. -/
theorem c6_lookup_innermost_to_outermost_witness :
    lookupVariable [[], [("haz", ⟨"haz", none, 3⟩)]] "haz" = some ⟨"haz", none, 3⟩ ∧
    parseVariableUse 1
      ⟨[("see", 1), ("haz", 1), ("#mkay", 1)], "#lemme", 1,
        [[], [("haz", ⟨"haz", none, 3⟩)]]⟩ =
      some (nextToken ⟨[], "#mkay", 1, [[], [("haz", ⟨"haz", none, 3⟩)]]⟩) ∧
    parseVariableUse 1 ⟨[("see", 1), ("x", 1), ("#mkay", 1)], "#lemme", 1, [[]]⟩ =
      some (Except.error ⟨ErrKind.semErr, useErrMsg 1 "x"⟩) :=
  ⟨c6_lookup_innermost_to_outermost.1 [[]] [("haz", ⟨"haz", none, 3⟩)] []
      "haz" ⟨"haz", none, 3⟩ (by decide) rfl,
   c6_lookup_innermost_to_outermost.2.2.1 0 [] [[], [("haz", ⟨"haz", none, 3⟩)]]
      1 1 1 1 "haz" ⟨"haz", none, 3⟩ rfl rfl rfl,
   c6_lookup_innermost_to_outermost.2.2.2 0 [] [[]] 1 1 1 1 "x" rfl rfl rfl⟩

/-- C7: the parser's scope stack always contains at least one frame — the
global frame, which is never removed: `push_scope` adds exactly one frame
(conjunct 1); `pop_scope` with a single frame is the identity (conjunct 2)
and with more than one frame removes exactly the innermost (conjunct 3), so
it preserves non-emptiness (conjunct 4); `declare_variable` preserves the
frame count and non-emptiness (conjunct 5).  A frame is pushed exactly on
entering a paragraph block and popped exactly on leaving it, and no other
block type pushes or pops a frame: the head block leaves the scope stack
exactly unchanged (conjunct 6), as does the list machinery — its item loop
and single items (conjuncts 7 and 8; `parse_list` itself always aborts with
an error before returning, its loop only stopping on an empty token which
the following `#oic` check rejects, so its scope behaviour is exactly that
of its item loop) — while a successful paragraph restores exactly the scope
stack it entered with, its push matched by its pop (conjunct 9). -/
theorem c7_scope_stack_invariant :
    (∀ st : PState, (pushScope st).scope_stack = [] :: st.scope_stack) ∧
    (∀ st : PState, st.scope_stack.length = 1 → popScope st = st) ∧
    (∀ st : PState, 1 < st.scope_stack.length →
       (popScope st).scope_stack = st.scope_stack.tail) ∧
    (∀ st : PState, st.scope_stack ≠ [] → (popScope st).scope_stack ≠ []) ∧
    (∀ (st : PState) (n : String) (v : Option String) (l : Nat) (st' : PState),
       declareVariable st n v l = Except.ok st' →
       st'.scope_stack.length = st.scope_stack.length ∧
       (st.scope_stack ≠ [] → st'.scope_stack ≠ [])) ∧
    (∀ (fuel : Nat) (st st' : PState),
       parseHead fuel st = some (Except.ok st') →
       st'.scope_stack = st.scope_stack) ∧
    (∀ (fuel : Nat) (st st' : PState),
       parseListItems fuel st = some (Except.ok st') →
       st'.scope_stack = st.scope_stack) ∧
    (∀ (fuel : Nat) (st st' : PState),
       parseItem fuel st = some (Except.ok st') →
       st'.scope_stack = st.scope_stack) ∧
    (∀ (fuel : Nat) (st st' : PState), st.scope_stack ≠ [] →
       parseParagraph fuel st = some (Except.ok st') →
       st'.scope_stack = st.scope_stack) := by
  refine ⟨fun st => rfl, ?_, popScope_scope_of_lt, ?_, ?_, ?_, ?_, ?_, ?_⟩
  · intro st h
    unfold popScope
    rw [h]
    simp
  · intro st hne
    by_cases h1 : 1 < st.scope_stack.length
    · rw [popScope_scope_of_lt st h1]
      have h2 : 0 < st.scope_stack.tail.length := by
        have := st.scope_stack.length_tail
        omega
      exact List.ne_nil_of_length_pos h2
    · unfold popScope
      rw [if_neg h1]
      exact hne
  · intro st n v l st' h
    obtain ⟨ht, hl⟩ := declareVariable_shape st n v l st' (by rw [h])
    refine ⟨hl, fun hne => ?_⟩
    have h2 : 0 < st.scope_stack.length := List.length_pos.mpr hne
    rw [← hl] at h2
    exact List.ne_nil_of_length_pos h2
  · intro fuel st st' h
    exact parseHead_scope fuel st st' h
  · intro fuel st st' h
    exact parseListItems_scope fuel st st' h
  · intro fuel st st' h
    exact parseItem_scope fuel st st' h
  · intro fuel st st' hne h
    exact parseParagraph_scope fuel st hne st' h

/-- C7 witness: each scope-stack fact applied at concrete states — a push
onto the global frame, the two pop behaviours, a concrete declaration, a
complete head block, an empty item loop, a complete list item, and a
complete (empty) paragraph. -/
theorem c7_scope_stack_invariant_witness :
    (pushScope ⟨[], "", 1, [[]]⟩).scope_stack = [[], []] ∧
    popScope ⟨[], "", 1, [[]]⟩ = ⟨[], "", 1, [[]]⟩ ∧
    (popScope ⟨[], "", 1, [[], []]⟩).scope_stack = [[]] ∧
    (popScope ⟨[], "", 1, [[]]⟩).scope_stack ≠ [] ∧
    (([[("haz", ⟨"haz", none, 1⟩)]] : List Frame).length = ([[]] : List Frame).length ∧
      (([[]] : List Frame) ≠ [] → ([[("haz", ⟨"haz", none, 1⟩)]] : List Frame) ≠ [])) ∧
    (([[]] : List Frame) = [[]]) ∧
    (([[]] : List Frame) = [[]]) ∧
    (([[("haz", ⟨"haz", none, 1⟩)]] : List Frame) = [[("haz", ⟨"haz", none, 1⟩)]]) ∧
    (([[]] : List Frame) = [[]]) :=
  ⟨c7_scope_stack_invariant.1 ⟨[], "", 1, [[]]⟩,
   c7_scope_stack_invariant.2.1 ⟨[], "", 1, [[]]⟩ rfl,
   c7_scope_stack_invariant.2.2.1 ⟨[], "", 1, [[], []]⟩ (by decide),
   c7_scope_stack_invariant.2.2.2.1 ⟨[], "", 1, [[]]⟩ (by simp),
   c7_scope_stack_invariant.2.2.2.2.1 ⟨[], "", 1, [[]]⟩ "haz" none 1
     ⟨[], "", 1, [[("haz", ⟨"haz", none, 1⟩)]]⟩ rfl,
   c7_scope_stack_invariant.2.2.2.2.2.1 16
     ⟨[("head", 1), ("#gimmeh", 1), ("title", 1), ("hi", 1), ("#mkay", 1),
       ("#oic", 1)], "#maek", 1, [[]]⟩ ⟨[], "", 1, [[]]⟩ rfl,
   c7_scope_stack_invariant.2.2.2.2.2.2.1 1 ⟨[], "", 1, [[]]⟩ ⟨[], "", 1, [[]]⟩ rfl,
   c7_scope_stack_invariant.2.2.2.2.2.2.2.1 16
     ⟨[("item", 1), ("#lemme", 1), ("see", 1), ("haz", 1), ("#mkay", 1),
       ("#mkay", 1)], "#gimmeh", 1, [[("haz", ⟨"haz", none, 1⟩)]]⟩
     ⟨[], "#mkay", 1, [[("haz", ⟨"haz", none, 1⟩)]]⟩ rfl,
   c7_scope_stack_invariant.2.2.2.2.2.2.2.2 8
     ⟨[("#oic", 1)], "paragraf", 1, [[]]⟩ ⟨[], "", 1, [[]]⟩ (by simp) rfl⟩
